import Mathlib

/-!
Verification of the browser-side controller `src/static/script.js` of the
ffl repository (fantasy-sports recommendation form).

The file is a shallow embedding: the script's pure computations (score
classification, card HTML construction, the sort comparator, `toFixed`)
become Lean functions on `ℚ` and `String`, and the submit handler's DOM
mutations become explicit state passing over a `UIState` record whose
fields are the text/visibility of the DOM elements the script writes.
JavaScript values that can be `null`/`undefined` where the script checks
truthiness are modelled with `Option`/`JsNumVal`.  `Array.prototype.sort`
is required by ECMAScript to be stable, and for a consistent comparator
the stable sorted permutation is unique, so it is modelled by a stable
insertion sort over the script's comparator.  `String.prototype.trim` is
modelled by a whitespace trim over the character list.  `fetch`,
`console.log`, `scrollTo` and `preventDefault` have no modelled effect on
this state; the server's reply is an explicit `FetchOutcome` input.
-/

namespace FFL

/-- Value of the `reco_score` property of a server record: a JavaScript
number, or JSON `null`, or an absent property (`undefined`). -/
inductive JsNumVal where
  | num (q : ℚ)
  | null
  | undef
deriving DecidableEq, Repr

/-- ToNumber as used by JavaScript relational comparison: `null` coerces
to 0, `undefined` to NaN (modelled as `none`). -/
def jsToNum : JsNumVal → Option ℚ
  | .num q => some q
  | .null => some 0
  | .undef => none

/-- JavaScript `v >= c` for a numeric constant `c`: NaN comparisons are
false. -/
def jsGe (v : JsNumVal) (c : ℚ) : Bool :=
  match jsToNum v with
  | some q => decide (c ≤ q)
  | none => false

/-- JavaScript truthiness of a number-or-missing value: 0, null and
undefined are falsy (NaN is not modelled; scores are rationals). -/
def jsTruthyNum : JsNumVal → Bool
  | .num q => decide (q ≠ 0)
  | .null => false
  | .undef => false

/-- One record of the server's JSON reply (spec §3 PlayerRecord).  String
properties that the script tests for truthiness or interpolates are
`Option String` (`none` = absent/undefined); the four stat fields are
kept as the text that `textContent` assignment would display. -/
structure PlayerRecord where
  player_name : Option String
  team : Option String
  position : Option String
  reco_score : JsNumVal
  reco_conclusion : String
  input_week : Option String
  input_year : Option String
  volume : String
  yards : String
  receptions : String
  td : String
deriving DecidableEq, Repr

/-- Template-literal interpolation of a possibly-undefined string. -/
def jsStr (o : Option String) : String := o.getD "undefined"

/-- JavaScript truthiness of a possibly-undefined string: `""` and
`undefined` are falsy. -/
def jsTruthyStr : Option String → Bool
  | some s => decide (s ≠ "")
  | none => false

/-- JavaScript `x || d` for a possibly-undefined string `x`. -/
def jsOrStr (o : Option String) (d : String) : String :=
  if jsTruthyStr o then jsStr o else d

/-- The `${x || 'N/A'}` pattern of `createPlayerCardHTML`. -/
def jsOrNA (o : Option String) : String := jsOrStr o "N/A"

/-- Number.prototype.toFixed(2) on an exact rational: round to the
nearest hundredth, ties away from zero, and print with two decimals
(idealised: the engine rounds the binary double, which agrees on the
decimal fractions used here). -/
def toFixed2 (q : ℚ) : String :=
  let sgn := if q < 0 then "-" else ""
  let m : ℕ := (⌊(if q < 0 then -q else q) * 100 + 1 / 2⌋).toNat
  sgn ++ Nat.repr (m / 100) ++ "." ++ (if m % 100 < 10 then "0" else "") ++ Nat.repr (m % 100)

/-- Lines 13-18: score colour of a list card.  `scoreColor` starts red and
is upgraded at the 75 and 45 thresholds. -/
def scoreColor (v : JsNumVal) : String :=
  if jsGe v 75 then "text-green-500"
  else if jsGe v 45 then "text-yellow-400"
  else "text-red-500"

/-- Line 29: `${playerData.reco_score ? playerData.reco_score.toFixed(2) : '--'}`;
`toFixed` is reached only when the score is truthy, hence always on an
actual number. -/
def cardScoreText : JsNumVal → String
  | .num q => if q ≠ 0 then toFixed2 q else "--"
  | .null => "--"
  | .undef => "--"

/-- Fixed text of the card template before the player name (line 21-22). -/
def cardPart1 : String :=
  "\n        <div class=\"bg-gray-700 p-6 rounded-xl shadow-lg border-l-4 border-yellow-600 hover:shadow-xl hover:shadow-yellow-500/10 transition duration-300\">\n            <h4 class=\"font-header text-2xl font-extrabold text-white mb-2\">"

/-- Card template between the name and the position (lines 22-24). -/
def cardPart2 : String :=
  "</h4>\n            <p class=\"text-md text-gray-400 mb-3\">\n                "

/-- Card template between the team and the score colour class (lines 24-28). -/
def cardPart3 : String :=
  "\n            </p>\n            <p class=\"text-xl text-gray-300\">\n                Score:\n                <span class=\"font-extrabold "

/-- Card template between the colour class and the score text (line 28-29). -/
def cardPart4 : String := "\">\n                    "

/-- Card template between the score and the conclusion (lines 30-32). -/
def cardPart5 : String :=
  "%\n                </span>\n            </p>\n            <p class=\"text-sm text-gray-400 mt-1\">"

/-- Card template after the conclusion (lines 32-34). -/
def cardPart6 : String := "</p>\n        </div>\n    "

/-- Lines 11-35: HTML string for a single player card. -/
def createPlayerCardHTML (playerData : PlayerRecord) : String :=
  cardPart1 ++ jsOrNA playerData.player_name
    ++ cardPart2 ++ jsOrNA playerData.position ++ " - " ++ jsOrNA playerData.team
    ++ cardPart3 ++ scoreColor playerData.reco_score ++ cardPart4
    ++ cardScoreText playerData.reco_score
    ++ cardPart5 ++ playerData.reco_conclusion ++ cardPart6

/-- Line 75 conclusion text (the source file's literal bytes, a
double-encoded fire emoji). -/
def mustStartText : String := "ðŸ”¥ MUST START (Elite Potential)"

/-- Line 78 conclusion text. -/
def flexText : String := "ðŸŸ¢ FLEX / HIGH POTENTIAL START (Solid Play)"

/-- Line 81 conclusion text. -/
def riskyText : String := "ðŸ”´ SIT / LOW FLEX (Risky Play)"

/-- Lines 74-83: conclusion text and CSS class of the detail view,
branching on `score >= 75` and `score >= 45`. -/
def detailConclusion (score : JsNumVal) : String × String :=
  if jsGe score 75 then (mustStartText, "text-green-400 bg-green-900/50")
  else if jsGe score 45 then (flexText, "text-yellow-400 bg-yellow-900/50")
  else (riskyText, "text-red-400 bg-red-900/50")

/-- The DOM state the script reads and writes: button/spinner, the shared
error region, the results section visibility, the list container (as the
sequence of HTML chunks it holds), its header, and the detail view's
element texts. -/
structure UIState where
  submitDisabled : Bool
  buttonText : String
  spinnerHidden : Bool
  recoHidden : Bool
  resultsDisplay : String
  errorMessage : String
  listCards : List String
  listHeader : String
  conclusionText : String
  conclusionClass : String
  playerNameDisplay : String
  recommendationScore : String
  inputYear : String
  inputWeek : String
  statVolume : String
  statYards : String
  statReceptions : String
  statTd : String
deriving DecidableEq, Repr

/-- Line 48 comparator `(a, b) => b.reco_score - a.reco_score`; per the
SortCompare spec a NaN result is treated as +0. -/
def sortComparator (a b : PlayerRecord) : ℚ :=
  match jsToNum b.reco_score, jsToNum a.reco_score with
  | some x, some y => x - y
  | _, _ => 0

/-- Keep `a` before `b` when the comparator is non-positive. -/
def sortLe (a b : PlayerRecord) : Bool := decide (sortComparator a b ≤ 0)

/-- Stable insertion into a sorted list: `x` goes before the first element
it compares `≤ 0` against, hence before elements comparing equal, which
were all originally after it. -/
def jsInsert (x : PlayerRecord) : List PlayerRecord → List PlayerRecord
  | [] => [x]
  | y :: ys => if sortLe x y then x :: y :: ys else y :: jsInsert x ys

/-- Model of `dataArray.sort((a, b) => b.reco_score - a.reco_score)`
(line 48): ECMAScript requires a stable sort, and for a consistent
comparator the stable sorted permutation is unique, so any stable sort is
an exact model; we use insertion sort. -/
def jsSort : List PlayerRecord → List PlayerRecord
  | [] => []
  | x :: xs => jsInsert x (jsSort xs)

/-- Numeric key the comparator orders by (null coerces to 0; undefined
keys make the comparator NaN, i.e. 0). -/
def scoreKey (r : PlayerRecord) : ℚ := (jsToNum r.reco_score).getD 0

/-- Stands in for the engine-specific `TypeError` message produced when
the rendering code reads a property of `null` or calls `toFixed` on a
non-number; the catch block displays `error.message`, whose exact text is
engine-defined. -/
def typeErrorMessage : String := "TypeError"

/-- Lines 42-45: list header text derived from the first record. -/
def listHeaderText (first : PlayerRecord) : String :=
  "Top Fantasy Options for the " ++ jsStr first.team ++ " (Week "
    ++ (if jsTruthyStr first.input_week then jsStr first.input_week else "N/A") ++ ")"

/-- Line 55: placeholder paragraph when the list is empty. -/
def noSkillDataHTML : String :=
  "<p class=\"text-lg text-gray-400 text-center p-4\">No skill position data found for that team this week.</p>"

/-- Lines 38-61 `renderPlayerList`: clear the list container, set the
header from the first record, sort by the comparator, append one card per
record, hide the detail container and reveal the results section.
Returns the state together with a flag that is `true` when the original
code would throw (a `null` element: `dataArray[0].team` or the
comparator's property access raises a `TypeError`, after the container
was cleared and — when the first element is non-null — the header set). -/
def renderPlayerList (dataArray : List (Option PlayerRecord)) (s : UIState) : UIState × Bool :=
  let s1 : UIState := { s with listCards := [] }
  match dataArray with
  | [] =>
      let s2 : UIState := { s1 with
        listHeader := "Top Fantasy Options for the Team (Week N/A)",
        listCards := [noSkillDataHTML],
        resultsDisplay := "none", recoHidden := false }
      (s2, false)
  | none :: _ => (s1, true)
  | some first :: _ =>
      let s2 : UIState := { s1 with listHeader := listHeaderText first }
      if dataArray.all Option.isSome then
        let sorted := jsSort (dataArray.filterMap id)
        ({ s2 with
            listCards := sorted.map createPlayerCardHTML,
            resultsDisplay := "none", recoHidden := false }, false)
      else (s2, true)

/-- Lines 64-104 `renderSinglePlayerDetail`: clear the list, set the
header, set conclusion text/class and the player-name line, then format
the score and copy the stat fields, show the detail container and reveal
the results section.  When `reco_score` is not a number, line 91
(`score.toFixed(2)`) throws a `TypeError` after the conclusion and name
were already written; the flag is `true` in that case. -/
def renderSinglePlayerDetail (data : PlayerRecord) (s : UIState) : UIState × Bool :=
  let cc := detailConclusion data.reco_score
  let s1 : UIState := { s with
    listCards := [], listHeader := "Detailed Player Analysis",
    conclusionText := cc.1,
    conclusionClass := "font-body text-xl font-bold p-2 rounded-md " ++ cc.2,
    playerNameDisplay := jsStr data.player_name ++ " (" ++ jsStr data.team
      ++ " - " ++ jsStr data.position ++ ")" }
  match data.reco_score with
  | .num q =>
      ({ s1 with
          recommendationScore := toFixed2 q ++ " /100",
          inputYear := jsStr data.input_year,
          inputWeek := jsStr data.input_week,
          statVolume := data.volume, statYards := data.yards,
          statReceptions := data.receptions, statTd := data.td,
          resultsDisplay := "block", recoHidden := false }, false)
  | _ => (s1, true)

/-- The three trimmed form fields read on submission. -/
structure FormInputs where
  playerInput : String
  weekInput : String
  yearInput : String
deriving DecidableEq, Repr

/-- Model of `String.prototype.trim`: drop whitespace from both ends. -/
def jsTrim (s : String) : String :=
  ⟨(s.data.dropWhile Char.isWhitespace).reverse.dropWhile Char.isWhitespace |>.reverse⟩

/-- JSON body of the POST request (lines 154-158). -/
structure Payload where
  player_or_team_input : String
  year : String
  week : String
deriving DecidableEq, Repr

/-- A parsed JSON reply as far as the script inspects it: an array of
records-or-nulls, a non-array object (of which only an `error` string
property is consulted), the JSON value `null` (on which any property
access throws a `TypeError`), or any other JSON value (string, number,
boolean — property access on these yields `undefined`, no throw). -/
inductive JsVal where
  | arr (elems : List (Option PlayerRecord))
  | obj (err : Option String)
  | null
  | other
deriving DecidableEq, Repr

/-- Body of an HTTP response: either it parses as JSON, or `json()`
rejects with an engine parse-error message. -/
inductive BodyParse where
  | parsed (v : JsVal)
  | unparseable (errMsg : String)
deriving DecidableEq, Repr

/-- An HTTP response as the script consumes it. -/
structure HttpResponse where
  ok : Bool
  statusText : String
  body : BodyParse
deriving DecidableEq, Repr

/-- Result of the awaited `fetch`: a response, or a rejected promise
(network failure) whose error message the catch block displays. -/
inductive FetchOutcome where
  | networkFailure (msg : String)
  | response (r : HttpResponse)
deriving DecidableEq, Repr

/-- The `errorData.error` property lookup on a parsed JSON value:
`undefined` unless the value is an object with an `error` field.  On a
`null` value the lookup itself throws a `TypeError`, so `tryFetch` never
consults `errField` there; `errField .null = none` merely records the
static fact that `null` has no `error` field. -/
def errField : JsVal → Option String
  | .obj e => e
  | _ => none

/-- The catch block, lines 218-222: display `error.message` and reveal
the results section. -/
def catchErr (msg : String) (s : UIState) : UIState :=
  { s with errorMessage := msg, recoHidden := false }

/-- Line 203 message for an empty result array. -/
def noDataText : String :=
  "No player or team data found for your search in the selected week/year."

/-- Line 193 message when the single array element is null. -/
def nullSingleText : String := "Error: Single player data was null."

/-- Line 208 message for a non-array reply. -/
def badFormatText : String :=
  "Unexpected error: Received data is not a recognized list format."

/-- Line 149 alert text for missing fields. -/
def alertText : String := "Please enter a player name/team, week, and year."

/-- Idle label of the submit button (lines 147, 226). -/
def idleLabel : String := "Analyze Player/Team"

/-- Lines 160-222, the try/catch around the fetch: HTTP-error handling
(lines 172-174), the four-way branch on the parsed body (lines 188-210),
and the catch block.  Throws inside `try` land in `catchErr`: the
explicit `throw`, a JSON parse rejection, a rendering `TypeError`, and
the two property accesses that throw when the body parses as `null` —
`errorData.error` on line 174 for a non-2xx response, and the
`console.log` of `data.length` on line 184 for a 2xx response (reached
before the array branch). -/
def tryFetch (outcome : FetchOutcome) (s : UIState) : UIState :=
  match outcome with
  | .networkFailure m => catchErr m s
  | .response r =>
    if r.ok = false then
      match r.body with
      | .parsed .null => catchErr typeErrorMessage s
      | .parsed v => catchErr (jsOrStr (errField v) r.statusText) s
      | .unparseable _ => catchErr r.statusText s
    else
      match r.body with
      | .unparseable em => catchErr em s
      | .parsed .null => catchErr typeErrorMessage s
      | .parsed (.arr xs) =>
        if xs.length = 1 then
          match xs with
          | [some r0] =>
            let p := renderSinglePlayerDetail r0 s
            if p.2 then catchErr typeErrorMessage p.1 else p.1
          | _ => { s with errorMessage := nullSingleText, recoHidden := false }
        else if 1 < xs.length then
          let p := renderPlayerList xs s
          if p.2 then catchErr typeErrorMessage p.1 else p.1
        else
          { s with errorMessage := noDataText, recoHidden := false }
      | .parsed _ => { s with errorMessage := badFormatText, recoHidden := false }

/-- Everything one submission does, beyond the DOM: the state, whether a
request was issued (and its payload), and whether `alert` fired. -/
structure SubmitResult where
  ui : UIState
  request : Option Payload
  alerted : Option String
deriving DecidableEq, Repr

/-- Lines 126-229, the submit handler: enter the loading state and clear
previous results (lines 130-137), validate the trimmed fields (lines
140-151, alert and restore on failure, no request), otherwise run the
fetch with the try/catch and always restore the button, label and
spinner in `finally` (lines 223-228). -/
def handleSubmit (inp : FormInputs) (outcome : FetchOutcome) (s0 : UIState) : SubmitResult :=
  let s : UIState := { s0 with
    submitDisabled := true, buttonText := "Analyzing...", spinnerHidden := false,
    recoHidden := true, resultsDisplay := "none", errorMessage := "" }
  if jsTrim inp.playerInput = "" ∨ jsTrim inp.weekInput = "" ∨ jsTrim inp.yearInput = "" then
    { ui := { s with submitDisabled := false, buttonText := idleLabel, spinnerHidden := true },
      request := none,
      alerted := some alertText }
  else
    let s1 := tryFetch outcome s
    { ui := { s1 with submitDisabled := false, buttonText := idleLabel, spinnerHidden := true },
      request := some { player_or_team_input := jsTrim inp.playerInput,
                        year := jsTrim inp.yearInput, week := jsTrim inp.weekInput },
      alerted := none }

/-- A page state before any submission: idle controls, hidden results,
empty containers. -/
def initialUI : UIState :=
  { submitDisabled := false, buttonText := idleLabel, spinnerHidden := true,
    recoHidden := true, resultsDisplay := "none", errorMessage := "",
    listCards := [], listHeader := "", conclusionText := "", conclusionClass := "",
    playerNameDisplay := "", recommendationScore := "", inputYear := "", inputWeek := "",
    statVolume := "", statYards := "", statReceptions := "", statTd := "" }

/-- A minimal record carrying a given score, used as concrete test input. -/
def scoreRec (q : ℚ) : PlayerRecord :=
  { player_name := some "P", team := some "T", position := some "RB",
    reco_score := .num q, reco_conclusion := "ok", input_week := some "5",
    input_year := some "2024", volume := "1", yards := "2", receptions := "3", td := "4" }

/-! ### Helper lemmas about the sort model -/

theorem jsInsert_perm (x : PlayerRecord) (l : List PlayerRecord) :
    (jsInsert x l).Perm (x :: l) := by
  induction l with
  | nil => exact List.Perm.refl _
  | cons y ys ih =>
    by_cases h : sortLe x y = true
    · rw [jsInsert, if_pos h]
    · rw [jsInsert, if_neg h]
      exact (ih.cons y).trans (List.Perm.swap x y ys)

theorem jsSort_perm (l : List PlayerRecord) : (jsSort l).Perm l := by
  induction l with
  | nil => exact List.Perm.refl _
  | cons x xs ih => exact (jsInsert_perm x (jsSort xs)).trans (ih.cons x)

theorem sortLe_eq_key (a b : PlayerRecord) (ha : a.reco_score ≠ JsNumVal.undef)
    (hb : b.reco_score ≠ JsNumVal.undef) :
    sortLe a b = decide (scoreKey b ≤ scoreKey a) := by
  unfold sortLe sortComparator scoreKey
  cases hsa : a.reco_score <;> cases hsb : b.reco_score <;>
    simp_all [jsToNum, sub_nonpos]

theorem jsInsert_head (x : PlayerRecord) (l : List PlayerRecord) :
    (jsInsert x l).head? = some x ∨ (jsInsert x l).head? = l.head? := by
  cases l with
  | nil => left; rfl
  | cons y ys =>
    by_cases h : sortLe x y = true
    · left; rw [jsInsert, if_pos h]; rfl
    · right; rw [jsInsert, if_neg h]; rfl

theorem chain'_jsInsert (x : PlayerRecord) (l : List PlayerRecord)
    (hx : x.reco_score ≠ JsNumVal.undef) (hl : ∀ r ∈ l, r.reco_score ≠ JsNumVal.undef)
    (hc : l.Chain' (fun a b => scoreKey b ≤ scoreKey a)) :
    (jsInsert x l).Chain' (fun a b => scoreKey b ≤ scoreKey a) := by
  induction l with
  | nil => simp [jsInsert]
  | cons y ys ih =>
    have hy : y.reco_score ≠ JsNumVal.undef := hl y (by simp)
    have hys : ∀ r ∈ ys, r.reco_score ≠ JsNumVal.undef := fun r hr => hl r (by simp [hr])
    by_cases h : sortLe x y = true
    · rw [jsInsert, if_pos h]
      refine List.Chain'.cons ?_ hc
      rw [sortLe_eq_key x y hx hy] at h
      exact of_decide_eq_true h
    · rw [jsInsert, if_neg h]
      rw [List.chain'_cons']
      refine ⟨?_, ih hys hc.tail⟩
      intro z hz
      have hxy : scoreKey x ≤ scoreKey y := by
        rw [sortLe_eq_key x y hx hy] at h
        simp only [decide_eq_true_eq] at h
        exact le_of_not_le h
      rcases jsInsert_head x ys with hh | hh
      · rw [hh, Option.mem_def] at hz
        cases hz
        exact hxy
      · rw [hh] at hz
        exact (List.chain'_cons'.mp hc).1 z hz

theorem chain'_jsSort (l : List PlayerRecord)
    (hl : ∀ r ∈ l, r.reco_score ≠ JsNumVal.undef) :
    (jsSort l).Chain' (fun a b => scoreKey b ≤ scoreKey a) := by
  induction l with
  | nil => simp [jsSort]
  | cons x xs ih =>
    have hx := hl x (by simp)
    have hxs : ∀ r ∈ xs, r.reco_score ≠ JsNumVal.undef := fun r hr => hl r (by simp [hr])
    have hmem : ∀ r ∈ jsSort xs, r.reco_score ≠ JsNumVal.undef := fun r hr =>
      hxs r ((jsSort_perm xs).mem_iff.mp hr)
    exact chain'_jsInsert x (jsSort xs) hx hmem (ih hxs)

/-! ### Claim theorems -/

/-- C1: for every numeric score `s`, the detail view's conclusion is the
"must start" tier iff `s ≥ 75`, the "flex" tier iff `45 ≤ s < 75` and the
"sit/risky" tier iff `s < 45` (boundaries belong to the higher tier), and
the list card's score colour follows exactly the same 75/45 thresholds. -/
theorem score_tier_thresholds (s : ℚ) :
    ((detailConclusion (.num s)).1 = mustStartText ↔ 75 ≤ s)
  ∧ ((detailConclusion (.num s)).1 = flexText ↔ 45 ≤ s ∧ s < 75)
  ∧ ((detailConclusion (.num s)).1 = riskyText ↔ s < 45)
  ∧ ((detailConclusion (.num s)).2 = "text-green-400 bg-green-900/50" ↔ 75 ≤ s)
  ∧ ((detailConclusion (.num s)).2 = "text-yellow-400 bg-yellow-900/50" ↔ 45 ≤ s ∧ s < 75)
  ∧ ((detailConclusion (.num s)).2 = "text-red-400 bg-red-900/50" ↔ s < 45)
  ∧ (scoreColor (.num s) = "text-green-500" ↔ 75 ≤ s)
  ∧ (scoreColor (.num s) = "text-yellow-400" ↔ 45 ≤ s ∧ s < 75)
  ∧ (scoreColor (.num s) = "text-red-500" ↔ s < 45) := by
  rcases le_or_lt 75 s with h75 | h75
  · have h45 : (45 : ℚ) ≤ s := le_trans (by norm_num) h75
    have hn75 : ¬s < 75 := not_lt.mpr h75
    have hn45 : ¬s < 45 := not_lt.mpr h45
    simp [detailConclusion, scoreColor, jsGe, jsToNum, h75, h45, hn75, hn45,
      mustStartText, flexText, riskyText]
  · have hq75 : ¬(75 : ℚ) ≤ s := not_le.mpr h75
    rcases le_or_lt 45 s with h45 | h45
    · have hn45 : ¬s < 45 := not_lt.mpr h45
      simp [detailConclusion, scoreColor, jsGe, jsToNum, hq75, h45, h75, hn45,
        mustStartText, flexText, riskyText]
    · have hq45 : ¬(45 : ℚ) ≤ s := not_le.mpr h45
      have hn : ¬(45 ≤ s ∧ s < 75) := fun h => hq45 h.1
      simp [detailConclusion, scoreColor, jsGe, jsToNum, hq75, hq45, h45, hn,
        mustStartText, flexText, riskyText]

/-- C6: after every submission completes — whatever the outcome, including
HTTP errors, parse failures, shape errors and rendering failures — the
submit control is enabled, its label is the idle label and the spinner is
hidden. -/
theorem ui_restored_after_submit (inp : FormInputs) (oc : FetchOutcome) (s0 : UIState) :
    (handleSubmit inp oc s0).ui.submitDisabled = false
  ∧ (handleSubmit inp oc s0).ui.buttonText = idleLabel
  ∧ (handleSubmit inp oc s0).ui.spinnerHidden = true := by
  refine ⟨?_, ?_, ?_⟩ <;> (simp only [handleSubmit]; split <;> rfl)

/-- C4: a submission with any of the three trimmed fields empty issues no
request, re-enables the submit control, restores its idle label, hides the
spinner and raises the blocking alert. -/
theorem empty_field_blocks_request (inp : FormInputs) (oc : FetchOutcome) (s0 : UIState)
    (h : jsTrim inp.playerInput = "" ∨ jsTrim inp.weekInput = "" ∨ jsTrim inp.yearInput = "") :
    (handleSubmit inp oc s0).request = none
  ∧ (handleSubmit inp oc s0).alerted = some alertText
  ∧ (handleSubmit inp oc s0).ui.submitDisabled = false
  ∧ (handleSubmit inp oc s0).ui.buttonText = idleLabel
  ∧ (handleSubmit inp oc s0).ui.spinnerHidden = true := by
  simp [handleSubmit, if_pos h]

/-- Witness for C4 at a concrete submission with an empty week field. -/
theorem empty_field_blocks_request_witness :
    (jsTrim "Tom" = "" ∨ jsTrim "" = "" ∨ jsTrim "2024" = "")
  ∧ ((handleSubmit ⟨"Tom", "", "2024"⟩
        (.response ⟨true, "OK", .parsed (.arr [])⟩) initialUI).request = none
  ∧ (handleSubmit ⟨"Tom", "", "2024"⟩
        (.response ⟨true, "OK", .parsed (.arr [])⟩) initialUI).alerted = some alertText
  ∧ (handleSubmit ⟨"Tom", "", "2024"⟩
        (.response ⟨true, "OK", .parsed (.arr [])⟩) initialUI).ui.submitDisabled = false
  ∧ (handleSubmit ⟨"Tom", "", "2024"⟩
        (.response ⟨true, "OK", .parsed (.arr [])⟩) initialUI).ui.buttonText = idleLabel
  ∧ (handleSubmit ⟨"Tom", "", "2024"⟩
        (.response ⟨true, "OK", .parsed (.arr [])⟩) initialUI).ui.spinnerHidden = true) :=
  ⟨Or.inr (Or.inl rfl),
   empty_field_blocks_request ⟨"Tom", "", "2024"⟩
     (.response ⟨true, "OK", .parsed (.arr [])⟩) initialUI (Or.inr (Or.inl rfl))⟩

/-- C2: a successful response parsed as a one-element array of a record
(with a numeric score, per the spec's data model) renders the detail view
from that record, shows the detail panel and leaves the list container
empty (with the detail header). -/
theorem single_record_detail_view (inp : FormInputs) (s0 : UIState)
    (r : HttpResponse) (rec : PlayerRecord) (q : ℚ)
    (hp : jsTrim inp.playerInput ≠ "") (hw : jsTrim inp.weekInput ≠ "")
    (hy : jsTrim inp.yearInput ≠ "")
    (hok : r.ok = true) (hb : r.body = .parsed (.arr [some rec]))
    (hs : rec.reco_score = .num q) :
    (handleSubmit inp (.response r) s0).ui.resultsDisplay = "block"
  ∧ (handleSubmit inp (.response r) s0).ui.recoHidden = false
  ∧ (handleSubmit inp (.response r) s0).ui.listCards = []
  ∧ (handleSubmit inp (.response r) s0).ui.listHeader = "Detailed Player Analysis"
  ∧ (handleSubmit inp (.response r) s0).ui.conclusionText = (detailConclusion (.num q)).1
  ∧ (handleSubmit inp (.response r) s0).ui.conclusionClass
      = "font-body text-xl font-bold p-2 rounded-md " ++ (detailConclusion (.num q)).2
  ∧ (handleSubmit inp (.response r) s0).ui.playerNameDisplay
      = jsStr rec.player_name ++ " (" ++ jsStr rec.team ++ " - " ++ jsStr rec.position ++ ")"
  ∧ (handleSubmit inp (.response r) s0).ui.recommendationScore = toFixed2 q ++ " /100"
  ∧ (handleSubmit inp (.response r) s0).ui.inputYear = jsStr rec.input_year
  ∧ (handleSubmit inp (.response r) s0).ui.inputWeek = jsStr rec.input_week
  ∧ (handleSubmit inp (.response r) s0).ui.statVolume = rec.volume
  ∧ (handleSubmit inp (.response r) s0).ui.statYards = rec.yards
  ∧ (handleSubmit inp (.response r) s0).ui.statReceptions = rec.receptions
  ∧ (handleSubmit inp (.response r) s0).ui.statTd = rec.td := by
  have hcond : ¬(jsTrim inp.playerInput = "" ∨ jsTrim inp.weekInput = ""
      ∨ jsTrim inp.yearInput = "") := by simp [hp, hw, hy]
  simp [handleSubmit, if_neg hcond, tryFetch, hok, hb, renderSinglePlayerDetail, hs]

/-- Witness for C2 at a concrete one-record response. -/
theorem single_record_detail_view_witness :
    jsTrim "Patrick Mahomes" ≠ "" ∧ jsTrim "5" ≠ "" ∧ jsTrim "2024" ≠ ""
  ∧ (scoreRec 88).reco_score = .num 88
  ∧ ((handleSubmit ⟨"Patrick Mahomes", "5", "2024"⟩
        (.response ⟨true, "OK", .parsed (.arr [some (scoreRec 88)])⟩) initialUI).ui.resultsDisplay
        = "block"
  ∧ (handleSubmit ⟨"Patrick Mahomes", "5", "2024"⟩
        (.response ⟨true, "OK", .parsed (.arr [some (scoreRec 88)])⟩) initialUI).ui.recoHidden
        = false
  ∧ (handleSubmit ⟨"Patrick Mahomes", "5", "2024"⟩
        (.response ⟨true, "OK", .parsed (.arr [some (scoreRec 88)])⟩) initialUI).ui.listCards
        = []
  ∧ (handleSubmit ⟨"Patrick Mahomes", "5", "2024"⟩
        (.response ⟨true, "OK", .parsed (.arr [some (scoreRec 88)])⟩) initialUI).ui.listHeader
        = "Detailed Player Analysis"
  ∧ (handleSubmit ⟨"Patrick Mahomes", "5", "2024"⟩
        (.response ⟨true, "OK", .parsed (.arr [some (scoreRec 88)])⟩) initialUI).ui.conclusionText
        = (detailConclusion (.num 88)).1
  ∧ (handleSubmit ⟨"Patrick Mahomes", "5", "2024"⟩
        (.response ⟨true, "OK", .parsed (.arr [some (scoreRec 88)])⟩) initialUI).ui.conclusionClass
        = "font-body text-xl font-bold p-2 rounded-md " ++ (detailConclusion (.num 88)).2
  ∧ (handleSubmit ⟨"Patrick Mahomes", "5", "2024"⟩
        (.response ⟨true, "OK", .parsed (.arr [some (scoreRec 88)])⟩) initialUI).ui.playerNameDisplay
        = jsStr (scoreRec 88).player_name ++ " (" ++ jsStr (scoreRec 88).team
          ++ " - " ++ jsStr (scoreRec 88).position ++ ")"
  ∧ (handleSubmit ⟨"Patrick Mahomes", "5", "2024"⟩
        (.response ⟨true, "OK", .parsed (.arr [some (scoreRec 88)])⟩) initialUI).ui.recommendationScore
        = toFixed2 88 ++ " /100"
  ∧ (handleSubmit ⟨"Patrick Mahomes", "5", "2024"⟩
        (.response ⟨true, "OK", .parsed (.arr [some (scoreRec 88)])⟩) initialUI).ui.inputYear
        = jsStr (scoreRec 88).input_year
  ∧ (handleSubmit ⟨"Patrick Mahomes", "5", "2024"⟩
        (.response ⟨true, "OK", .parsed (.arr [some (scoreRec 88)])⟩) initialUI).ui.inputWeek
        = jsStr (scoreRec 88).input_week
  ∧ (handleSubmit ⟨"Patrick Mahomes", "5", "2024"⟩
        (.response ⟨true, "OK", .parsed (.arr [some (scoreRec 88)])⟩) initialUI).ui.statVolume
        = (scoreRec 88).volume
  ∧ (handleSubmit ⟨"Patrick Mahomes", "5", "2024"⟩
        (.response ⟨true, "OK", .parsed (.arr [some (scoreRec 88)])⟩) initialUI).ui.statYards
        = (scoreRec 88).yards
  ∧ (handleSubmit ⟨"Patrick Mahomes", "5", "2024"⟩
        (.response ⟨true, "OK", .parsed (.arr [some (scoreRec 88)])⟩) initialUI).ui.statReceptions
        = (scoreRec 88).receptions
  ∧ (handleSubmit ⟨"Patrick Mahomes", "5", "2024"⟩
        (.response ⟨true, "OK", .parsed (.arr [some (scoreRec 88)])⟩) initialUI).ui.statTd
        = (scoreRec 88).td) :=
  ⟨by decide, by decide, by decide, rfl,
   single_record_detail_view ⟨"Patrick Mahomes", "5", "2024"⟩ initialUI
     ⟨true, "OK", .parsed (.arr [some (scoreRec 88)])⟩ (scoreRec 88) 88
     (by decide) (by decide) (by decide) rfl rfl rfl⟩

/-- C3: a successful response parsed as an array of more than one record
(all with numeric scores) renders the list view with the cards in
descending `reco_score` order — the rendered cards are exactly the sorted
permutation of the records — and for the concrete scores [10, 90, 50] the
sorted order is [90, 50, 10]. -/
theorem list_view_sorted_desc :
    (∀ (inp : FormInputs) (s0 : UIState) (r : HttpResponse) (rs : List PlayerRecord),
      jsTrim inp.playerInput ≠ "" → jsTrim inp.weekInput ≠ "" → jsTrim inp.yearInput ≠ "" →
      r.ok = true → r.body = .parsed (.arr (rs.map some)) → 1 < rs.length →
      (∀ p ∈ rs, ∃ q : ℚ, p.reco_score = .num q) →
      (handleSubmit inp (.response r) s0).ui.listCards
          = (jsSort rs).map createPlayerCardHTML
        ∧ (jsSort rs).Perm rs
        ∧ (jsSort rs).Chain' (fun a b => scoreKey b ≤ scoreKey a)
        ∧ (handleSubmit inp (.response r) s0).ui.resultsDisplay = "none"
        ∧ (handleSubmit inp (.response r) s0).ui.recoHidden = false)
  ∧ jsSort [scoreRec 10, scoreRec 90, scoreRec 50]
      = [scoreRec 90, scoreRec 50, scoreRec 10] := by
  constructor
  · intro inp s0 r rs hp hw hy hok hb hlen hnum
    have hcond : ¬(jsTrim inp.playerInput = "" ∨ jsTrim inp.weekInput = ""
        ∨ jsTrim inp.yearInput = "") := by simp [hp, hw, hy]
    have hne1 : ¬(rs.map some).length = 1 := by simp; omega
    have hgt1 : 1 < (rs.map some).length := by simpa using hlen
    have hundef : ∀ p ∈ rs, p.reco_score ≠ JsNumVal.undef := by
      intro p hpmem
      obtain ⟨q, hq⟩ := hnum p hpmem
      simp [hq]
    cases rs with
    | nil => simp at hlen
    | cons a tail =>
      have htail : ¬tail = [] := by
        intro hE
        rw [hE] at hlen
        simp at hlen
      have h0 : 0 < tail.length := by
        cases tail with
        | nil => exact absurd rfl htail
        | cons b bs => simp
      refine ⟨?_, jsSort_perm _, chain'_jsSort _ hundef, ?_, ?_⟩ <;>
        simp [handleSubmit, if_neg hcond, tryFetch, hok, hb, hne1, hgt1, htail, h0,
          renderPlayerList, List.filterMap_map]
  · norm_num [jsSort, jsInsert, sortLe, sortComparator, jsToNum, scoreRec]

/-- Witness for C3 at the concrete score sequence [10, 90, 50]. -/
theorem list_view_sorted_desc_witness :
    jsTrim "Chiefs" ≠ ""
  ∧ ((handleSubmit ⟨"Chiefs", "5", "2024"⟩
        (.response ⟨true, "OK",
          .parsed (.arr ([scoreRec 10, scoreRec 90, scoreRec 50].map some))⟩) initialUI).ui.listCards
        = (jsSort [scoreRec 10, scoreRec 90, scoreRec 50]).map createPlayerCardHTML
  ∧ (jsSort [scoreRec 10, scoreRec 90, scoreRec 50]).Perm [scoreRec 10, scoreRec 90, scoreRec 50]
  ∧ (jsSort [scoreRec 10, scoreRec 90, scoreRec 50]).Chain' (fun a b => scoreKey b ≤ scoreKey a))
  ∧ jsSort [scoreRec 10, scoreRec 90, scoreRec 50]
      = [scoreRec 90, scoreRec 50, scoreRec 10] := by
  have h := list_view_sorted_desc.1 ⟨"Chiefs", "5", "2024"⟩ initialUI
    ⟨true, "OK", .parsed (.arr ([scoreRec 10, scoreRec 90, scoreRec 50].map some))⟩
    [scoreRec 10, scoreRec 90, scoreRec 50]
    (by decide) (by decide) (by decide) rfl rfl (by decide)
    (by intro p hpmem
        simp [scoreRec] at hpmem
        rcases hpmem with h1 | h1 | h1 <;> rw [h1] <;> exact ⟨_, rfl⟩)
  exact ⟨by decide, ⟨h.1, h.2.1, h.2.2.1⟩, list_view_sorted_desc.2⟩

/-- C5 counterexample: a non-2xx response whose body parses as JSON and
contains an `error` field whose value is the empty string displays the
HTTP status text, not the field's value. -/
theorem empty_error_field_falls_back :
    errField (.obj (some "")) = some ""
  ∧ (handleSubmit ⟨"Tom", "5", "2024"⟩
      (.response ⟨false, "Not Found", .parsed (.obj (some ""))⟩) initialUI).ui.errorMessage
      = "Not Found"
  ∧ ("Not Found" : String) ≠ "" := by
  refine ⟨rfl, ?_, by decide⟩
  simp [handleSubmit, tryFetch, jsOrStr, jsTruthyStr, jsStr, errField, catchErr, jsTrim]

/-- C5 (amended): for a non-2xx response, the displayed error text equals
the body's `error` field whenever the body parses as JSON and that field
is present and non-empty, and equals the HTTP status text whenever the
body is not parseable as JSON. -/
theorem http_error_text (inp : FormInputs) (s0 : UIState) (r : HttpResponse)
    (hp : jsTrim inp.playerInput ≠ "") (hw : jsTrim inp.weekInput ≠ "")
    (hy : jsTrim inp.yearInput ≠ "") (hok : r.ok = false) :
    (∀ (v : JsVal) (m : String), r.body = .parsed v → errField v = some m → m ≠ "" →
      (handleSubmit inp (.response r) s0).ui.errorMessage = m)
  ∧ (∀ em : String, r.body = .unparseable em →
      (handleSubmit inp (.response r) s0).ui.errorMessage = r.statusText) := by
  have hcond : ¬(jsTrim inp.playerInput = "" ∨ jsTrim inp.weekInput = ""
      ∨ jsTrim inp.yearInput = "") := by simp [hp, hw, hy]
  constructor
  · intro v m hbv hf hm
    cases v with
    | null => simp [errField] at hf
    | arr elems => simp [errField] at hf
    | other => simp [errField] at hf
    | obj e =>
      simp only [errField] at hf
      simp [handleSubmit, if_neg hcond, tryFetch, hok, hbv, catchErr, jsOrStr,
        jsTruthyStr, jsStr, errField, hf, hm]
  · intro em hbe
    simp [handleSubmit, if_neg hcond, tryFetch, hok, hbe, catchErr]

/-- Witness for C5 (amended): a 404 whose body is the object with error
"not found" displays "not found"; a 500 with an unparseable body displays
its status text. -/
theorem http_error_text_witness :
    jsTrim "Tom" ≠ ""
  ∧ (handleSubmit ⟨"Tom", "5", "2024"⟩
      (.response ⟨false, "Not Found", .parsed (.obj (some "not found"))⟩) initialUI).ui.errorMessage
      = "not found"
  ∧ (handleSubmit ⟨"Tom", "5", "2024"⟩
      (.response ⟨false, "Internal Server Error",
        .unparseable "Unexpected token in JSON"⟩) initialUI).ui.errorMessage
      = "Internal Server Error" :=
  ⟨by decide,
   (http_error_text ⟨"Tom", "5", "2024"⟩ initialUI
      ⟨false, "Not Found", .parsed (.obj (some "not found"))⟩
      (by decide) (by decide) (by decide) rfl).1
     (.obj (some "not found")) "not found" rfl rfl (by decide),
   (http_error_text ⟨"Tom", "5", "2024"⟩ initialUI
      ⟨false, "Internal Server Error", .unparseable "Unexpected token in JSON"⟩
      (by decide) (by decide) (by decide) rfl).2
     "Unexpected token in JSON" rfl⟩

/-- C10 counterexample: a non-2xx response whose body is the JSON value
`null` parses successfully as JSON and contains no `error` field, yet the
displayed text is the message of the `TypeError` thrown by line 174's
`errorData.error` access on `null` — not the HTTP status text. -/
theorem null_body_not_status_text :
    errField JsVal.null = none
  ∧ (handleSubmit ⟨"Tom", "5", "2024"⟩
      (.response ⟨false, "Internal Server Error", .parsed .null⟩) initialUI).ui.errorMessage
      = typeErrorMessage
  ∧ typeErrorMessage ≠ "Internal Server Error" := by
  refine ⟨rfl, ?_, by decide⟩
  simp [handleSubmit, tryFetch, catchErr, jsTrim]

/-- C10 (amended): for a non-2xx response whose body parses as a JSON
value other than `null` with no `error` field (or an empty-string
`error` field), the displayed error text equals the HTTP status text;
when the body parses as `null`, line 174's property access itself throws
and the `TypeError`'s message is displayed instead. -/
theorem missing_error_field_fallback (inp : FormInputs) (s0 : UIState)
    (r : HttpResponse)
    (hp : jsTrim inp.playerInput ≠ "") (hw : jsTrim inp.weekInput ≠ "")
    (hy : jsTrim inp.yearInput ≠ "") (hok : r.ok = false) :
    (∀ v : JsVal, r.body = .parsed v → v ≠ .null →
      errField v = none ∨ errField v = some "" →
      (handleSubmit inp (.response r) s0).ui.errorMessage = r.statusText)
  ∧ (r.body = .parsed .null →
      (handleSubmit inp (.response r) s0).ui.errorMessage = typeErrorMessage) := by
  have hcond : ¬(jsTrim inp.playerInput = "" ∨ jsTrim inp.weekInput = ""
      ∨ jsTrim inp.yearInput = "") := by simp [hp, hw, hy]
  constructor
  · intro v hb hnn hf
    cases v with
    | null => exact absurd rfl hnn
    | arr elems =>
      simp [handleSubmit, if_neg hcond, tryFetch, hok, hb, catchErr, jsOrStr,
        jsTruthyStr, jsStr, errField]
    | other =>
      simp [handleSubmit, if_neg hcond, tryFetch, hok, hb, catchErr, jsOrStr,
        jsTruthyStr, jsStr, errField]
    | obj e =>
      simp only [errField] at hf
      rcases hf with hf | hf <;>
        simp [handleSubmit, if_neg hcond, tryFetch, hok, hb, catchErr, jsOrStr,
          jsTruthyStr, jsStr, errField, hf]
  · intro hb
    simp [handleSubmit, if_neg hcond, tryFetch, hok, hb, catchErr]

/-- Witness for C10 (amended): a 500 whose body is a JSON object without
an `error` field displays the status text; a 502 whose body is `null`
displays the TypeError message. -/
theorem missing_error_field_fallback_witness :
    jsTrim "Tom" ≠ ""
  ∧ errField (.obj none) = none
  ∧ (handleSubmit ⟨"Tom", "5", "2024"⟩
      (.response ⟨false, "Internal Server Error", .parsed (.obj none)⟩) initialUI).ui.errorMessage
      = "Internal Server Error"
  ∧ (handleSubmit ⟨"Tom", "5", "2024"⟩
      (.response ⟨false, "Bad Gateway", .parsed .null⟩) initialUI).ui.errorMessage
      = typeErrorMessage :=
  ⟨by decide, rfl,
   (missing_error_field_fallback ⟨"Tom", "5", "2024"⟩ initialUI
      ⟨false, "Internal Server Error", .parsed (.obj none)⟩
      (by decide) (by decide) (by decide) rfl).1
     (.obj none) rfl (by decide) (Or.inl rfl),
   (missing_error_field_fallback ⟨"Tom", "5", "2024"⟩ initialUI
      ⟨false, "Bad Gateway", .parsed .null⟩
      (by decide) (by decide) (by decide) rfl).2 rfl⟩

/-- C8: a successful response whose body is the empty array displays the
"no data found" message, renders no cards (the list container is left
untouched), keeps both the detail and the list rendering hidden/empty,
and completes like a success: no alert, controls restored. -/
theorem empty_array_no_data (inp : FormInputs) (s0 : UIState) (r : HttpResponse)
    (hp : jsTrim inp.playerInput ≠ "") (hw : jsTrim inp.weekInput ≠ "")
    (hy : jsTrim inp.yearInput ≠ "")
    (hok : r.ok = true) (hb : r.body = .parsed (.arr [])) :
    (handleSubmit inp (.response r) s0).ui.errorMessage = noDataText
  ∧ (handleSubmit inp (.response r) s0).ui.listCards = s0.listCards
  ∧ (handleSubmit inp (.response r) s0).ui.resultsDisplay = "none"
  ∧ (handleSubmit inp (.response r) s0).ui.recoHidden = false
  ∧ (handleSubmit inp (.response r) s0).alerted = none
  ∧ (handleSubmit inp (.response r) s0).ui.submitDisabled = false
  ∧ (handleSubmit inp (.response r) s0).ui.buttonText = idleLabel
  ∧ (handleSubmit inp (.response r) s0).ui.spinnerHidden = true := by
  have hcond : ¬(jsTrim inp.playerInput = "" ∨ jsTrim inp.weekInput = ""
      ∨ jsTrim inp.yearInput = "") := by simp [hp, hw, hy]
  simp [handleSubmit, if_neg hcond, tryFetch, hok, hb]

/-- Witness for C8: from the initial page state (empty list container),
an empty-array reply yields the message and no rendered cards. -/
theorem empty_array_no_data_witness :
    jsTrim "Nobody" ≠ ""
  ∧ initialUI.listCards = ([] : List String)
  ∧ ((handleSubmit ⟨"Nobody", "5", "2024"⟩
        (.response ⟨true, "OK", .parsed (.arr [])⟩) initialUI).ui.errorMessage = noDataText
  ∧ (handleSubmit ⟨"Nobody", "5", "2024"⟩
        (.response ⟨true, "OK", .parsed (.arr [])⟩) initialUI).ui.listCards = initialUI.listCards
  ∧ (handleSubmit ⟨"Nobody", "5", "2024"⟩
        (.response ⟨true, "OK", .parsed (.arr [])⟩) initialUI).ui.resultsDisplay = "none"
  ∧ (handleSubmit ⟨"Nobody", "5", "2024"⟩
        (.response ⟨true, "OK", .parsed (.arr [])⟩) initialUI).ui.recoHidden = false
  ∧ (handleSubmit ⟨"Nobody", "5", "2024"⟩
        (.response ⟨true, "OK", .parsed (.arr [])⟩) initialUI).alerted = none
  ∧ (handleSubmit ⟨"Nobody", "5", "2024"⟩
        (.response ⟨true, "OK", .parsed (.arr [])⟩) initialUI).ui.submitDisabled = false
  ∧ (handleSubmit ⟨"Nobody", "5", "2024"⟩
        (.response ⟨true, "OK", .parsed (.arr [])⟩) initialUI).ui.buttonText = idleLabel
  ∧ (handleSubmit ⟨"Nobody", "5", "2024"⟩
        (.response ⟨true, "OK", .parsed (.arr [])⟩) initialUI).ui.spinnerHidden = true) :=
  ⟨by decide, rfl,
   empty_array_no_data ⟨"Nobody", "5", "2024"⟩ initialUI
     ⟨true, "OK", .parsed (.arr [])⟩ (by decide) (by decide) (by decide) rfl rfl⟩

/-- C9: a list card whose record has a falsy `reco_score` (0, null or an
absent property) shows "--" where the formatted score would be — not
"0.00", which is what formatting 0 would produce — and shows the
two-decimal formatted score exactly when the score is a non-zero number. -/
theorem falsy_score_card_dashes (r : PlayerRecord) :
    ((r.reco_score = .num 0 ∨ r.reco_score = .null ∨ r.reco_score = .undef) →
      cardScoreText r.reco_score = "--"
      ∧ createPlayerCardHTML r
          = cardPart1 ++ jsOrNA r.player_name ++ cardPart2 ++ jsOrNA r.position ++ " - "
            ++ jsOrNA r.team ++ cardPart3 ++ scoreColor r.reco_score ++ cardPart4 ++ "--"
            ++ cardPart5 ++ r.reco_conclusion ++ cardPart6)
  ∧ (∀ q : ℚ, r.reco_score = .num q → q ≠ 0 → cardScoreText r.reco_score = toFixed2 q)
  ∧ toFixed2 0 = "0.00"
  ∧ ("--" : String) ≠ "0.00" := by
  refine ⟨?_, ?_, ?_, by decide⟩
  · intro h
    rcases h with h | h | h <;> simp [createPlayerCardHTML, cardScoreText, h]
  · intro q hq hq0
    simp [cardScoreText, hq, hq0]
  · norm_num [toFixed2]
    decide

/-- Classifies the fetch outcomes whose handler branch ends in the shared
error region (mirrors the branch structure of `tryFetch`): network
failure, HTTP error, parse failure, empty array, null single element,
non-numeric single score (rendering `TypeError`), a null element in a
longer list (rendering `TypeError`), and non-array bodies.  The three
successful renders map to `false`. -/
def errorOutcome : FetchOutcome → Bool
  | .networkFailure _ => true
  | .response r =>
    if r.ok = false then true
    else match r.body with
      | .unparseable _ => true
      | .parsed (.arr xs) =>
        if xs.length = 1 then
          match xs with
          | [some r0] =>
            match r0.reco_score with
            | .num _ => false
            | _ => true
          | _ => true
        else if 1 < xs.length then !(xs.all Option.isSome)
        else true
      | .parsed _ => true

/-- The engine-supplied message sources are non-empty: the status text
and, for an unparseable body, the parse-error message. -/
def msgSourcesNonempty : FetchOutcome → Prop
  | .networkFailure m => m ≠ ""
  | .response r => r.statusText ≠ ""
      ∧ (∀ em : String, r.body = BodyParse.unparseable em → em ≠ "")

theorem jsOrStr_ne_empty (o : Option String) (d : String) (hd : d ≠ "") :
    jsOrStr o d ≠ "" := by
  cases o with
  | none => simpa [jsOrStr, jsTruthyStr, jsStr] using hd
  | some s =>
    by_cases hs : s = ""
    · simpa [jsOrStr, jsTruthyStr, jsStr, hs] using hd
    · simp [jsOrStr, jsTruthyStr, jsStr, hs]

theorem tryFetch_error_state (oc : FetchOutcome) (s : UIState)
    (he : errorOutcome oc = true) (hm : msgSourcesNonempty oc) :
    (tryFetch oc s).recoHidden = false ∧ (tryFetch oc s).errorMessage ≠ "" := by
  cases oc with
  | networkFailure m => exact ⟨rfl, hm⟩
  | response r =>
    obtain ⟨ok, st, body⟩ := r
    obtain ⟨hst, hun⟩ := hm
    cases ok with
    | false =>
      cases body with
      | parsed v =>
        cases v with
        | null => exact ⟨rfl, show typeErrorMessage ≠ "" by decide⟩
        | arr elems =>
          exact ⟨rfl, show jsOrStr (errField (.arr elems)) st ≠ "" from
            jsOrStr_ne_empty _ _ hst⟩
        | obj e =>
          exact ⟨rfl, show jsOrStr (errField (.obj e)) st ≠ "" from
            jsOrStr_ne_empty _ _ hst⟩
        | other =>
          exact ⟨rfl, show jsOrStr (errField .other) st ≠ "" from
            jsOrStr_ne_empty _ _ hst⟩
      | unparseable em => exact ⟨rfl, hst⟩
    | true =>
      cases body with
      | unparseable em => exact ⟨rfl, hun em rfl⟩
      | parsed v =>
        cases v with
        | null => exact ⟨rfl, show typeErrorMessage ≠ "" by decide⟩
        | obj e => exact ⟨rfl, show badFormatText ≠ "" by decide⟩
        | other => exact ⟨rfl, show badFormatText ≠ "" by decide⟩
        | arr xs =>
          cases xs with
          | nil => exact ⟨rfl, show noDataText ≠ "" by decide⟩
          | cons x rest =>
            cases rest with
            | nil =>
              cases x with
              | none => exact ⟨rfl, show nullSingleText ≠ "" by decide⟩
              | some r0 =>
                cases hscore : r0.reco_score with
                | num q => simp [errorOutcome, hscore] at he
                | null =>
                  constructor <;>
                    simp [tryFetch, renderSinglePlayerDetail, hscore, catchErr,
                      typeErrorMessage]
                | undef =>
                  constructor <;>
                    simp [tryFetch, renderSinglePlayerDetail, hscore, catchErr,
                      typeErrorMessage]
            | cons y rest2 =>
              have hlen1 : ¬((x :: y :: rest2).length = 1) := by
                simp only [List.length_cons]
                omega
              have hlen2 : 1 < (x :: y :: rest2).length := by
                simp only [List.length_cons]
                omega
              cases hallb : (x :: y :: rest2).all Option.isSome with
              | true => simp [errorOutcome, hlen1, hlen2, hallb] at he
              | false =>
                cases x with
                | none =>
                  constructor <;>
                    simp [tryFetch, renderPlayerList, hlen1, hlen2, catchErr,
                      typeErrorMessage]
                | some first =>
                  constructor <;>
                    simp [tryFetch, renderPlayerList, hlen1, hlen2, hallb, catchErr,
                      typeErrorMessage]

/-- C7 counterexample: the client-side validation failure is an error
path that does not write into the shared error region and does not
reveal the results section — it alerts, leaves the region cleared and
the section hidden. -/
theorem validation_no_inline_message :
    (handleSubmit ⟨"Tom", "", "2024"⟩
      (.response ⟨true, "OK", .parsed (.arr [])⟩) initialUI).ui.errorMessage = ""
  ∧ (handleSubmit ⟨"Tom", "", "2024"⟩
      (.response ⟨true, "OK", .parsed (.arr [])⟩) initialUI).ui.recoHidden = true
  ∧ (handleSubmit ⟨"Tom", "", "2024"⟩
      (.response ⟨true, "OK", .parsed (.arr [])⟩) initialUI).alerted = some alertText := by
  refine ⟨?_, ?_, ?_⟩ <;> decide

/-- C7 (amended): every error path after a request is issued — HTTP
failure, parse failure, empty result, unrecognized shape, rendering
failure — writes a non-empty message into the shared error region and
reveals the results section; the client-side validation failure instead
raises the blocking alert, leaves the error region cleared and the
results section hidden. -/
theorem error_paths_inline_message (inp : FormInputs) (oc : FetchOutcome) (s0 : UIState) :
    ((jsTrim inp.playerInput ≠ "" ∧ jsTrim inp.weekInput ≠ "" ∧ jsTrim inp.yearInput ≠ "") →
      errorOutcome oc = true → msgSourcesNonempty oc →
      (handleSubmit inp oc s0).ui.recoHidden = false
      ∧ (handleSubmit inp oc s0).ui.errorMessage ≠ "")
  ∧ ((jsTrim inp.playerInput = "" ∨ jsTrim inp.weekInput = "" ∨ jsTrim inp.yearInput = "") →
      (handleSubmit inp oc s0).alerted = some alertText
      ∧ (handleSubmit inp oc s0).ui.errorMessage = ""
      ∧ (handleSubmit inp oc s0).ui.recoHidden = true) := by
  constructor
  · intro hv he hm
    obtain ⟨hp, hw, hy⟩ := hv
    have hcond : ¬(jsTrim inp.playerInput = "" ∨ jsTrim inp.weekInput = ""
        ∨ jsTrim inp.yearInput = "") := by simp [hp, hw, hy]
    constructor
    · simp only [handleSubmit, if_neg hcond]
      exact (tryFetch_error_state oc _ he hm).1
    · simp only [handleSubmit, if_neg hcond]
      exact (tryFetch_error_state oc _ he hm).2
  · intro h
    simp [handleSubmit, if_pos h]

/-- Witness for C7 (amended): an empty-array reply (an error path) writes
its message and reveals the section; an empty week field (validation)
alerts with the region left empty and the section hidden. -/
theorem error_paths_inline_message_witness :
    errorOutcome (.response ⟨true, "OK", .parsed (.arr [])⟩) = true
  ∧ ((handleSubmit ⟨"Tom", "5", "2024"⟩
        (.response ⟨true, "OK", .parsed (.arr [])⟩) initialUI).ui.recoHidden = false
     ∧ (handleSubmit ⟨"Tom", "5", "2024"⟩
        (.response ⟨true, "OK", .parsed (.arr [])⟩) initialUI).ui.errorMessage ≠ "")
  ∧ ((handleSubmit ⟨"Tom", "", "2024"⟩
        (.response ⟨true, "OK", .parsed (.arr [])⟩) initialUI).alerted = some alertText
     ∧ (handleSubmit ⟨"Tom", "", "2024"⟩
        (.response ⟨true, "OK", .parsed (.arr [])⟩) initialUI).ui.errorMessage = ""
     ∧ (handleSubmit ⟨"Tom", "", "2024"⟩
        (.response ⟨true, "OK", .parsed (.arr [])⟩) initialUI).ui.recoHidden = true) :=
  ⟨rfl,
   (error_paths_inline_message ⟨"Tom", "5", "2024"⟩
      (.response ⟨true, "OK", .parsed (.arr [])⟩) initialUI).1
     ⟨by decide, by decide, by decide⟩ rfl ⟨by decide, fun em h => nomatch h⟩,
   (error_paths_inline_message ⟨"Tom", "", "2024"⟩
      (.response ⟨true, "OK", .parsed (.arr [])⟩) initialUI).2
     (Or.inr (Or.inl (by decide)))⟩

/-- Witness for C9: a record with score exactly 0 renders "--"; one with
score 17 renders the formatted score. -/
theorem falsy_score_card_dashes_witness :
    (scoreRec 0).reco_score = .num 0
  ∧ cardScoreText (scoreRec 0).reco_score = "--"
  ∧ (scoreRec 17).reco_score = .num 17 ∧ (17 : ℚ) ≠ 0
  ∧ cardScoreText (scoreRec 17).reco_score = toFixed2 17 :=
  ⟨rfl,
   ((falsy_score_card_dashes (scoreRec 0)).1 (Or.inl rfl)).1,
   rfl, by decide,
   (falsy_score_card_dashes (scoreRec 17)).2.1 17 rfl (by decide)⟩

end FFL
